import Mathlib

/-!
Shallow embedding of the video challenge template engine
(`src/core/TemplateEngine.ts`, `src/utils/validation.ts`, `src/types/template.ts`,
`src/types/errors.ts`) and proofs about its specification.

Modelling conventions:
* JS numbers that the engine uses (durations, timings, participant bounds) are
  modelled as `Int`; the repository only ever uses integer values for them.
* TypeScript records become structures; `Partial<T>` payloads and optional
  fields become structures of `Option` fields (`none` = the key is absent).
* JS `Map` objects become association lists in insertion order; `Map.set` on a
  fresh key appends, on an existing key updates in place.
* Thrown exceptions become `Except` errors.  A JS `TypeError` raised by reading
  a property of `undefined` is modelled by the dedicated error
  `EngineError.jsTypeError`.
* `JSON.parse(JSON.stringify(t))` (a deep copy) is the identity on the pure
  values of this model.
-/

deriving instance DecidableEq for Except

namespace VideoTemplate

/-- Content element: spoken or text content (`DialogueElement` in
`src/types/template.ts`).  The `speaker` union type is modelled as `String`. -/
structure DialogueElement where
  speaker : String
  text : String
  timing : Int
  isCustomizable : Bool
deriving DecidableEq, Repr

/-- Physical or gameplay action (`ActionElement`). -/
structure ActionElement where
  type : String
  description : String
  participants : List String
  timing : Int
  isCustomizable : Bool
deriving DecidableEq, Repr

/-- Visual prop, effect or environment element (`VisualElement`). -/
structure VisualElement where
  type : String
  description : String
  timing : Int
  isCustomizable : Bool
deriving DecidableEq, Repr

/-- Content of one time segment (`SegmentContent`). -/
structure SegmentContent where
  dialogue : List DialogueElement
  actions : List ActionElement
  visualElements : List VisualElement
deriving DecidableEq, Repr

/-- Time-based segment (`TimeSegment`). -/
structure TimeSegment where
  startTime : Int
  duration : Int
  content : SegmentContent
deriving DecidableEq, Repr

/-- Participant (`Participant`).  The role union type is modelled as `String`
because `ValidationUtils.validateParticipant` checks role membership
dynamically. -/
structure Participant where
  id : String
  role : String
  name : String
  equipment : Option (List String)
  isCustomizable : Bool
deriving DecidableEq, Repr

/-- Challenge configuration (`Challenge`). -/
structure Challenge where
  objective : String
  targetObjects : List String
  rules : List String
  successCondition : String
  failureConsequence : String
  isCustomizable : Bool
deriving DecidableEq, Repr

/-- Environment structure (`Environment`). -/
structure Environment where
  location : String
  props : List String
  constraints : List String
  isCustomizable : Bool
deriving DecidableEq, Repr

/-- Template metadata (the `metadata` record in `ChallengeTemplate`). -/
structure TemplateMetadata where
  originalVideo : String
  duration : Int
  difficulty : String
  minParticipants : Int
  maxParticipants : Int
deriving DecidableEq, Repr

/-- The three named segments of a template.  `ValidationUtils.validateTemplate`
defensively handles each of the three being absent (it accesses them with the
optional chaining operator), so each is an `Option`. -/
structure SegmentsJS where
  intro : Option TimeSegment
  gameplay : Option TimeSegment
  conclusion : Option TimeSegment
deriving DecidableEq, Repr

/-- Customization permission flags (`customizationOptions`). -/
structure CustomizationOptions where
  allowParticipantChange : Bool
  allowChallengeChange : Bool
  allowEnvironmentChange : Bool
  allowDialogueChange : Bool
deriving DecidableEq, Repr

/-- A template value as the runtime sees it (`ChallengeTemplate`).  `metadata`
and `segments` are `Option` because `validateTemplate` defensively checks their
presence (`if (!template.metadata)`, `if (!template.segments)`): templates with
those fields missing are inputs the validator is written to handle. -/
structure TemplateJS where
  id : String
  name : String
  description : String
  metadata : Option TemplateMetadata
  challenge : Challenge
  participants : List Participant
  environment : Environment
  segments : Option SegmentsJS
  customizationOptions : CustomizationOptions
deriving DecidableEq, Repr

/-- Partial challenge override (`Partial<Challenge>`): every field optional. -/
structure ChallengeOverride where
  objective : Option String
  targetObjects : Option (List String)
  rules : Option (List String)
  successCondition : Option String
  failureConsequence : Option String
  isCustomizable : Option Bool
deriving DecidableEq, Repr

/-- Partial environment override (`Partial<Environment>`). -/
structure EnvironmentOverride where
  location : Option String
  props : Option (List String)
  constraints : Option (List String)
  isCustomizable : Option Bool
deriving DecidableEq, Repr

/-- Dialogue override map `{ [segmentId: string]: DialogueElement[] }`:
an association list of segment keys (JS object keys, hence unique and in
insertion order) to replacement dialogue sequences. -/
abbrev DialogueMap : Type := List (String × List DialogueElement)

/-- Customization payload accepted by `createInstance` (the `customizations`
parameter object). -/
structure CustomizationsJS where
  challenge : Option ChallengeOverride
  participants : Option (List Participant)
  environment : Option EnvironmentOverride
  dialogue : Option DialogueMap
deriving DecidableEq, Repr

/-- Generation settings attached to every instance (`generationSettings`). -/
structure GenerationSettings where
  outputFormat : String
  quality : String
  duration : Option Int
deriving DecidableEq, Repr

/-- Template instance (`TemplateInstance`). -/
structure InstanceJS where
  templateId : String
  instanceId : String
  customizedChallenge : Option ChallengeOverride
  customizedParticipants : Option (List Participant)
  customizedEnvironment : Option EnvironmentOverride
  customizedDialogue : Option DialogueMap
  generationSettings : GenerationSettings
deriving DecidableEq, Repr

/-- Errors of `src/types/errors.ts`, plus `jsTypeError` for an uncaught JS
`TypeError` raised by reading a property of `undefined`. -/
inductive EngineError where
  | invalidInput (parameter expectedType receivedType : String)
  | templateNotFound (templateId : String)
  | instanceNotFound (instanceId : String)
  | duplicateTemplate (templateId : String)
  | templateValidation (templateId : String) (issues : List String)
  | customizationValidation (templateId : String) (issues : List String)
  | scriptGeneration (instanceId : String) (reason : String)
  | jsTypeError
deriving DecidableEq, Repr

/-- Issue list rendered as the bullet block used in error messages: each
issue is prefixed with two spaces and a bullet, and the lines are joined with
newlines. -/
def issueBullets (issues : List String) : String :=
  String.intercalate "\n" (issues.map (fun i => "  • " ++ i))

/-- The `message` string of each error class in `src/types/errors.ts`.
`jsTypeError` gets the standard V8 TypeError text (platform behaviour,
approximated). -/
def EngineError.message : EngineError → String
  | EngineError.invalidInput p e r =>
      "Invalid input for parameter \x27" ++ p ++ "\x27: expected " ++ e ++
        ", received " ++ r ++ "."
  | EngineError.templateNotFound id =>
      "Template \x27" ++ id ++
        "\x27 not found. Available templates can be listed using getAvailableTemplates()."
  | EngineError.instanceNotFound id =>
      "Template instance \x27" ++ id ++
        "\x27 not found. Instance may have been deleted or never created."
  | EngineError.duplicateTemplate id =>
      "Template \x27" ++ id ++
        "\x27 already exists. Use a different ID or unregister the existing template first."
  | EngineError.templateValidation id issues =>
      "Template \x27" ++ id ++ "\x27 validation failed:\n" ++ issueBullets issues
  | EngineError.customizationValidation id issues =>
      "Customization validation failed for template \x27" ++ id ++ "\x27:\n" ++
        issueBullets issues
  | EngineError.scriptGeneration id reason =>
      "Failed to generate script for instance \x27" ++ id ++ "\x27: " ++ reason
  | EngineError.jsTypeError =>
      "Cannot read properties of undefined"

/-- JS runtime values at the granularity observed by
`ValidationUtils.validateInput`; `vnull` stands for both `null` and
`undefined` (the two are rejected by the same first check). -/
inductive JSValue where
  | vnull
  | vstr (s : String)
  | vnum (n : Int)
  | vbool (b : Bool)
  | varr
  | vobj
deriving DecidableEq, Repr

/-- The `actualType` computed in `validateInput`:
the observed kind name, where arrays are reported as "array" and
everything else as its `typeof`.  For `vnull` this is only
ever read after the null/undefined check has thrown, so the value is moot. -/
def jsActualType : JSValue → String
  | JSValue.vnull => "object"
  | JSValue.vstr _ => "string"
  | JSValue.vnum _ => "number"
  | JSValue.vbool _ => "boolean"
  | JSValue.varr => "array"
  | JSValue.vobj => "object"

/-- The JS test that a string is empty after trimming: true exactly when
every character is whitespace.  Stated over the character list so that it
evaluates inside the kernel. -/
def jsTrimEmpty (s : String) : Bool :=
  s.data.all Char.isWhitespace

/-- Embedding of `ValidationUtils.validateInput` (validation.ts).  The source
uses sequential `if` statements; since at most one `expectedType` branch can
apply, sequential and chained conditionals agree. -/
def validateInput (value : JSValue) (parameterName expectedType : String) :
    Except EngineError Unit :=
  if value = JSValue.vnull then
    Except.error (EngineError.invalidInput parameterName expectedType "null/undefined")
  else if expectedType = "string" then
    match value with
    | JSValue.vstr s =>
        if jsTrimEmpty s then
          Except.error (EngineError.invalidInput parameterName "non-empty string" "empty string")
        else Except.ok ()
    | _ => Except.error (EngineError.invalidInput parameterName expectedType (jsActualType value))
  else if expectedType = "object" then
    if value = JSValue.vobj then Except.ok ()
    else Except.error (EngineError.invalidInput parameterName expectedType (jsActualType value))
  else if expectedType = "array" then
    if value = JSValue.varr then Except.ok ()
    else Except.error (EngineError.invalidInput parameterName expectedType (jsActualType value))
  else Except.ok ()

/-- Embedding of `ValidationUtils.isValidUrl`, i.e. whether `new URL(url)`
succeeds.  `new URL` is a platform builtin, approximated here as: the string
has a nonempty scheme starting with a letter, followed by a colon and a
remainder.  No theorem below depends on finer URL syntax. -/
def isValidUrl (url : String) : Bool :=
  let scheme := url.data.takeWhile (fun ch => !(ch = ':'))
  match scheme with
  | [] => false
  | ch :: _ => ch.isAlpha && decide (scheme.length < url.data.length)

/-- Embedding of `ValidationUtils.validateParticipant`.  In this typed model
`id`/`name` are strings (the `typeof` half of the check always passes), so
only emptiness can fire, and `equipment`, when present, is a list, so the
`Array.isArray` check never fires. -/
def validateParticipant (p : Participant) : List String :=
  (if p.id = "" then ["Participant ID is required and must be a string"] else []) ++
  (if p.name = "" then ["Participant name is required and must be a string"] else []) ++
  (if p.role = "gamemaster" ∨ p.role = "player" then []
   else ["Participant role must be either \"gamemaster\" or \"player\""]) ++
  []

/-- Embedding of `ValidationUtils.validateChallenge` on a `Partial<Challenge>`.
List-typed fields always pass the `Array.isArray` checks in this typed model,
so only the non-empty-after-trim checks on string fields can fire. -/
def validateChallenge (c : ChallengeOverride) : List String :=
  (match c.objective with
   | some s => if jsTrimEmpty s then ["Objective must be a non-empty string"] else []
   | none => []) ++
  (match c.successCondition with
   | some s => if jsTrimEmpty s then ["Success condition must be a non-empty string"] else []
   | none => []) ++
  (match c.failureConsequence with
   | some s => if jsTrimEmpty s then ["Failure consequence must be a non-empty string"] else []
   | none => [])

/-- Embedding of `ValidationUtils.validateEnvironment` on a
`Partial<Environment>`; as with challenges only the string-field emptiness
checks can fire in the typed model. -/
def validateEnvironment (e : EnvironmentOverride) : List String :=
  match e.location with
  | some s => if jsTrimEmpty s then ["Location must be a non-empty string"] else []
  | none => []

/-- Count of participants with role `gamemaster`
(the length of the participant list filtered to the gamemaster role). -/
def gamemasterCount (ps : List Participant) : Nat :=
  (ps.filter (fun p => p.role = "gamemaster")).length

/-- Per-participant issues with a position label, as produced by the
`forEach((participant, index) => ...)` loops in `validateTemplate` and
`validateCustomizations`. -/
def indexedParticipantIssues (label : String) (ps : List Participant) : List String :=
  (ps.enum.map (fun ip =>
    (validateParticipant ip.2).map (fun issue =>
      label ++ toString (ip.1 + 1) ++ ": " ++ issue))).flatten

/-- Issues of the `id`/`name`/`description` checks of `validateTemplate`. -/
def baseFieldIssues (t : TemplateJS) : List String :=
  (if t.id = "" then ["Template ID is required and must be a string"] else []) ++
  (if t.name = "" then ["Template name is required and must be a string"] else []) ++
  (if t.description = "" then ["Template description is required and must be a string"] else [])

/-- Issues of the metadata section of `validateTemplate`. -/
def metadataIssues : Option TemplateMetadata → List String
  | none => ["Template metadata is required"]
  | some m =>
      (if m.originalVideo = "" ∨ isValidUrl m.originalVideo = false then
        ["Original video URL is required and must be a valid URL"] else []) ++
      (if m.duration ≤ 0 then ["Duration must be a positive number"] else []) ++
      (if m.minParticipants < 1 then ["Minimum participants must be at least 1"] else []) ++
      (if m.maxParticipants < m.minParticipants then
        ["Maximum participants must be greater than or equal to minimum participants"] else [])

/-- Issues of the participants section of `validateTemplate`. -/
def participantsSectionIssues (ps : List Participant) : List String :=
  if ps = [] then ["Template must have at least one participant"]
  else
    (if gamemasterCount ps = 0 then ["Template must have at least one gamemaster"] else []) ++
    (if 1 < gamemasterCount ps then ["Template should have only one gamemaster"] else []) ++
    indexedParticipantIssues "Participant " ps

/-- Missing-segment issues of `validateTemplate`. -/
def missingSegmentIssues (segs : SegmentsJS) : List String :=
  (if segs.intro.isNone then ["Missing required segment: intro"] else []) ++
  (if segs.gameplay.isNone then ["Missing required segment: gameplay"] else []) ++
  (if segs.conclusion.isNone then ["Missing required segment: conclusion"] else [])

/-- The sum `intro?.duration + gameplay?.duration + conclusion?.duration`;
`none` models the JS value `NaN` obtained when any segment is missing. -/
def totalSegmentDuration (segs : SegmentsJS) : Option Int :=
  match segs.intro, segs.gameplay, segs.conclusion with
  | some i, some g, some c => some (i.duration + g.duration + c.duration)
  | _, _, _ => none

/-- The duration-mismatch check of `validateTemplate`.  A `NaN` total makes
`Math.abs(totalDuration - duration) > 2` evaluate to false in JS, so the
`none` case produces no issue. -/
def durationMismatchIssues (segs : SegmentsJS) (m : TemplateMetadata) : List String :=
  match totalSegmentDuration segs with
  | none => []
  | some td =>
      if 2 < (td - m.duration).natAbs then
        ["Segment durations (" ++ toString td ++
          "s) don\x27t match template duration (" ++ toString m.duration ++ "s)"]
      else []

/-- Issue accumulation of `ValidationUtils.validateTemplate`, in source order.
When `segments` is present but `metadata` is missing, the unguarded read
`template.metadata.duration` on line 89 of validation.ts raises a TypeError,
modelled as `EngineError.jsTypeError` (the issues gathered so far are lost). -/
def validateTemplateIssues (t : TemplateJS) : Except EngineError (List String) :=
  match t.segments with
  | none =>
      Except.ok (baseFieldIssues t ++ metadataIssues t.metadata ++
        participantsSectionIssues t.participants ++ ["Template segments are required"])
  | some segs =>
      match t.metadata with
      | none => Except.error EngineError.jsTypeError
      | some m =>
          Except.ok (baseFieldIssues t ++ metadataIssues t.metadata ++
            participantsSectionIssues t.participants ++
            (missingSegmentIssues segs ++ durationMismatchIssues segs m))

/-- Embedding of `ValidationUtils.validateTemplate`. -/
def validateTemplate (t : TemplateJS) : Except EngineError Unit :=
  match validateTemplateIssues t with
  | Except.error e => Except.error e
  | Except.ok issues =>
      if issues = [] then Except.ok ()
      else Except.error (EngineError.templateValidation
        (if t.id = "" then "unknown" else t.id) issues)

/-- Participant-override issues of `validateCustomizations` (in this typed
model the override is a list, so the `Array.isArray` branch always passes). -/
def participantOverrideIssues (m : TemplateMetadata) (ps : List Participant) : List String :=
  (if (ps.length : Int) < m.minParticipants then
    ["Too few participants: " ++ toString ps.length ++
      " (minimum: " ++ toString m.minParticipants ++ ")"] else []) ++
  (if m.maxParticipants < (ps.length : Int) then
    ["Too many participants: " ++ toString ps.length ++
      " (maximum: " ++ toString m.maxParticipants ++ ")"] else []) ++
  (if gamemasterCount ps = 0 then ["At least one gamemaster is required"] else []) ++
  (if 1 < gamemasterCount ps then ["Only one gamemaster is allowed"] else []) ++
  indexedParticipantIssues "Custom participant " ps

/-- Dialogue-key issues of `validateCustomizations`: every key of the dialogue
override map must be one of the three segment names. -/
def dialogueKeyIssues (es : DialogueMap) : List String :=
  (es.map Prod.fst).filterMap (fun k =>
    if k = "intro" ∨ k = "gameplay" ∨ k = "conclusion" then none
    else some ("Invalid dialogue segment: " ++ k ++
      ". Must be \x27intro\x27, \x27gameplay\x27, or \x27conclusion\x27"))

/-- Challenge/environment/dialogue issues of `validateCustomizations`
(everything after the participants section, in source order). -/
def otherCustomizationIssues (c : CustomizationsJS) : List String :=
  (match c.challenge with
   | some ch => (validateChallenge ch).map (fun i => "Challenge: " ++ i)
   | none => []) ++
  (match c.environment with
   | some e => (validateEnvironment e).map (fun i => "Environment: " ++ i)
   | none => []) ++
  (match c.dialogue with
   | some es => dialogueKeyIssues es
   | none => [])

/-- Issue accumulation of `ValidationUtils.validateCustomizations`.  The
participant bounds read `template.metadata.minParticipants`; if the template
has no metadata and a participant override is supplied this raises a JS
TypeError. -/
def customizationIssues (t : TemplateJS) (c : CustomizationsJS) :
    Except EngineError (List String) :=
  match c.participants with
  | some ps =>
      match t.metadata with
      | none => Except.error EngineError.jsTypeError
      | some m => Except.ok (participantOverrideIssues m ps ++ otherCustomizationIssues c)
  | none => Except.ok (otherCustomizationIssues c)

/-- Embedding of `ValidationUtils.validateCustomizations`. -/
def validateCustomizations (t : TemplateJS) (c : CustomizationsJS) :
    Except EngineError Unit :=
  match customizationIssues t c with
  | Except.error e => Except.error e
  | Except.ok issues =>
      if issues = [] then Except.ok ()
      else Except.error (EngineError.customizationValidation t.id issues)

/-- The challenge override with no field present (`{}` as a
`Partial<Challenge>`). -/
def emptyChallengeOverride : ChallengeOverride :=
  ⟨none, none, none, none, none, none⟩

/-- The environment override with no field present. -/
def emptyEnvironmentOverride : EnvironmentOverride :=
  ⟨none, none, none, none⟩

/-- The empty customization payload (the `= {}` default of
`createInstance`). -/
def noCustomizations : CustomizationsJS :=
  ⟨none, none, none, none⟩

/-! ### Merger (`mergeTemplateWithCustomizations`, TemplateEngine.ts) -/

/-- Shallow merge of a challenge override onto a base challenge
(`Object.assign(merged.challenge, instance.customizedChallenge)`): present
override fields replace, absent fields keep the base value. -/
def mergeChallenge (base : Challenge) (o : ChallengeOverride) : Challenge :=
  { objective := o.objective.getD base.objective
    targetObjects := o.targetObjects.getD base.targetObjects
    rules := o.rules.getD base.rules
    successCondition := o.successCondition.getD base.successCondition
    failureConsequence := o.failureConsequence.getD base.failureConsequence
    isCustomizable := o.isCustomizable.getD base.isCustomizable }

/-- Shallow merge of an environment override onto a base environment
(`Object.assign(merged.environment, instance.customizedEnvironment)`). -/
def mergeEnvironment (base : Environment) (o : EnvironmentOverride) : Environment :=
  { location := o.location.getD base.location
    props := o.props.getD base.props
    constraints := o.constraints.getD base.constraints
    isCustomizable := o.isCustomizable.getD base.isCustomizable }

/-- Replace the dialogue sequence of a segment
(`segment.content.dialogue = ...`), leaving actions and visual elements
untouched. -/
def setSegmentDialogue (s : TimeSegment) (d : List DialogueElement) : TimeSegment :=
  { s with content := { s.content with dialogue := d } }

/-- One iteration of the dialogue-override loop: if the key names an existing
segment the dialogue is replaced, otherwise (`merged.segments[segmentId]` is
falsy) nothing happens. -/
def applyDialogueOverride (segs : SegmentsJS) (k : String) (d : List DialogueElement) :
    SegmentsJS :=
  if k = "intro" then
    match segs.intro with
    | some s => { segs with intro := some (setSegmentDialogue s d) }
    | none => segs
  else if k = "gameplay" then
    match segs.gameplay with
    | some s => { segs with gameplay := some (setSegmentDialogue s d) }
    | none => segs
  else if k = "conclusion" then
    match segs.conclusion with
    | some s => { segs with conclusion := some (setSegmentDialogue s d) }
    | none => segs
  else segs

/-- The `Object.keys(instance.customizedDialogue).forEach(...)` loop over the
dialogue override map, applied left to right in key insertion order. -/
def applyAllDialogueOverrides (segs : SegmentsJS) (es : DialogueMap) : SegmentsJS :=
  es.foldl (fun s kd => applyDialogueOverride s kd.1 kd.2) segs

/-- Error text raised when the merge loop reads a property of an undefined
`merged.segments`; the inner TypeError message is an approximation of the
platform text. -/
def mergeFailureMessage : String :=
  "Failed to merge template customizations: Cannot read properties of undefined"

/-- The challenge / participants / environment part of
`mergeTemplateWithCustomizations`: the deep copy
(`JSON.parse(JSON.stringify(template))`, the identity on pure values)
followed by the three conditional mutations.  The three `Object.assign` /
assignment statements touch pairwise distinct fields, so their sequential
composition is this single record update. -/
def mergeBase (t : TemplateJS) (inst : InstanceJS) : TemplateJS :=
  { t with
    challenge :=
      match inst.customizedChallenge with
      | some o => mergeChallenge t.challenge o
      | none => t.challenge
    participants :=
      match inst.customizedParticipants with
      | some ps => ps
      | none => t.participants
    environment :=
      match inst.customizedEnvironment with
      | some o => mergeEnvironment t.environment o
      | none => t.environment }

/-- Embedding of `TemplateEngine.mergeTemplateWithCustomizations`.  If the
dialogue override map is nonempty while `merged.segments` is undefined, the
loop body reads a property of `undefined`; the resulting TypeError is caught
by the surrounding `try` and rethrown as a generic merge error.  With an empty
map the `forEach` body never runs, so nothing is read. -/
def mergeTemplateWithCustomizations (template : TemplateJS) (inst : InstanceJS) :
    Except String TemplateJS :=
  let merged := mergeBase template inst
  match inst.customizedDialogue with
  | none => Except.ok merged
  | some es =>
      match merged.segments with
      | some segs =>
          Except.ok { merged with segments := some (applyAllDialogueOverrides segs es) }
      | none =>
          if es = [] then Except.ok merged else Except.error mergeFailureMessage

/-! ### Renderer (`createVideoScript`, TemplateEngine.ts) -/

/-- One dialogue line of the script: `**<speaker>:** "<text>"\n`. -/
def renderDialogueLines (ds : List DialogueElement) : String :=
  String.join (ds.map (fun d => "**" ++ d.speaker ++ ":** \"" ++ d.text ++ "\"\n"))

/-- The script text assembled by `createVideoScript` once all three segments
are known to be present. -/
def scriptText (t : TemplateJS) (intro gameplay conclusion : TimeSegment) : String :=
  "# Video Script: " ++ t.name ++ "\n\n" ++
  "## Challenge: " ++ t.challenge.objective ++ "\n" ++
  "**Location:** " ++ t.environment.location ++ "\n" ++
  "**Participants:** " ++ toString t.participants.length ++ "\n\n" ++
  "## Intro (0-" ++ toString intro.duration ++ "s)\n" ++
  renderDialogueLines intro.content.dialogue ++
  "\n## Gameplay (" ++ toString intro.duration ++ "-" ++
    toString (intro.duration + gameplay.duration) ++ "s)\n" ++
  renderDialogueLines gameplay.content.dialogue ++
  "\n## Conclusion (" ++ toString (intro.duration + gameplay.duration) ++ "-" ++
    toString (intro.duration + gameplay.duration + conclusion.duration) ++ "s)\n" ++
  renderDialogueLines conclusion.content.dialogue

/-- Error text for a render-time TypeError (reading `.duration` of a missing
segment); the inner message approximates the platform text. -/
def renderFailureMessage : String :=
  "Failed to create video script: Cannot read properties of undefined"

/-- Embedding of `TemplateEngine.createVideoScript`.  The code reads
`template.segments.intro.duration` (and the other two segments) without
guards; if `segments` or any of the three segments is missing, a TypeError is
raised and the surrounding `try` rethrows the generic render error (any
partially built script text is discarded). -/
def createVideoScript (t : TemplateJS) : Except String String :=
  match t.segments with
  | none => Except.error renderFailureMessage
  | some segs =>
      match segs.intro, segs.gameplay, segs.conclusion with
      | some intro, some gameplay, some conclusion =>
          Except.ok (scriptText t intro gameplay conclusion)
      | _, _, _ => Except.error renderFailureMessage

/-! ### Registry / instance store / engine facade (`TemplateEngine`) -/

/-- Engine state: the two private `Map`s of `TemplateEngine`, as association
lists in insertion order. -/
structure EngineState where
  templates : List (String × TemplateJS)
  instances : List (String × InstanceJS)
deriving DecidableEq, Repr

/-- The empty engine (`new TemplateEngine()`). -/
def emptyEngine : EngineState := { templates := [], instances := [] }

/-- JS `Map.has`. -/
def mapHas {α : Type} (m : List (String × α)) (k : String) : Bool :=
  (m.lookup k).isSome

/-- JS `Map.set`: updates the value in place for an existing key, appends a new
entry otherwise. -/
def mapSet {α : Type} (m : List (String × α)) (k : String) (v : α) :
    List (String × α) :=
  if mapHas m k then m.map (fun kv => if kv.1 = k then (k, v) else kv)
  else m ++ [(k, v)]

/-- JS `Map.delete` (the new map; the returned boolean is `mapHas m k`). -/
def mapDelete {α : Type} (m : List (String × α)) (k : String) :
    List (String × α) :=
  m.filter (fun kv => kv.1 ≠ k)

/-- Embedding of `TemplateEngine.registerTemplate`.  The initial
`validateInput` call on the template argument (expected kind: record) always
passes in this typed model, where a `TemplateJS` value is a non-null record,
so it is a no-op here. -/
def registerTemplate (st : EngineState) (template : TemplateJS) :
    Except EngineError EngineState :=
  if mapHas st.templates template.id then
    Except.error (EngineError.duplicateTemplate template.id)
  else
    match validateTemplate template with
    | Except.error e => Except.error e
    | Except.ok _ =>
        Except.ok { st with templates := mapSet st.templates template.id template }

/-- Embedding of `TemplateEngine.getTemplate`. -/
def getTemplate (st : EngineState) (templateId : String) :
    Except EngineError TemplateJS :=
  match validateInput (JSValue.vstr templateId) "templateId" "string" with
  | Except.error e => Except.error e
  | Except.ok _ =>
      match st.templates.lookup templateId with
      | some t => Except.ok t
      | none => Except.error (EngineError.templateNotFound templateId)

/-- Embedding of `TemplateEngine.getAvailableTemplates`. -/
def getAvailableTemplates (st : EngineState) : List String :=
  st.templates.map Prod.fst

/-- Embedding of `TemplateEngine.hasTemplate` over a dynamic argument.  The
fall-through branch is unreachable: `validateInput` only succeeds for the
`string` expected type on a string value. -/
def hasTemplate (st : EngineState) (templateId : JSValue) :
    Except EngineError Bool :=
  match validateInput templateId "templateId" "string" with
  | Except.error e => Except.error e
  | Except.ok _ =>
      match templateId with
      | JSValue.vstr s => Except.ok (mapHas st.templates s)
      | _ => Except.ok false

/-- Embedding of `TemplateEngine.createInstance`.  `generateInstanceId` mixes
`Date.now()` and `Math.random()`; the generated id is therefore supplied as
the parameter `freshId`.  The `validateInput` check on the customizations
argument (expected kind: record) always passes in this typed model, where the
payload is a non-null record. -/
def createInstance (st : EngineState) (templateId : String)
    (customizations : CustomizationsJS) (freshId : String) :
    Except EngineError (InstanceJS × EngineState) :=
  match validateInput (JSValue.vstr templateId) "templateId" "string" with
  | Except.error e => Except.error e
  | Except.ok _ =>
      match getTemplate st templateId with
      | Except.error e => Except.error e
      | Except.ok template =>
          match validateCustomizations template customizations with
          | Except.error e => Except.error e
          | Except.ok _ =>
              let inst : InstanceJS :=
                { templateId := templateId
                  instanceId := freshId
                  customizedChallenge := customizations.challenge
                  customizedParticipants := customizations.participants
                  customizedEnvironment := customizations.environment
                  customizedDialogue := customizations.dialogue
                  generationSettings :=
                    { outputFormat := "mp4", quality := "high", duration := none } }
              Except.ok (inst, { st with instances := mapSet st.instances freshId inst })

/-- Embedding of `TemplateEngine.generateScript`.  The `try` block around
template lookup, merge and render re-wraps a `TemplateNotFoundError` with the
"no longer exists" message and any other error as a `ScriptGenerationError`
carrying the underlying message.  No map is written, so the state is returned
unchanged. -/
def generateScript (st : EngineState) (instanceId : String) :
    Except EngineError (String × EngineState) :=
  match validateInput (JSValue.vstr instanceId) "instanceId" "string" with
  | Except.error e => Except.error e
  | Except.ok _ =>
      match st.instances.lookup instanceId with
      | none => Except.error (EngineError.instanceNotFound instanceId)
      | some inst =>
          match getTemplate st inst.templateId with
          | Except.error (EngineError.templateNotFound _) =>
              Except.error (EngineError.scriptGeneration instanceId
                ("Template \x27" ++ inst.templateId ++ "\x27 no longer exists"))
          | Except.error e =>
              Except.error (EngineError.scriptGeneration instanceId (EngineError.message e))
          | Except.ok template =>
              match mergeTemplateWithCustomizations template inst with
              | Except.error msg =>
                  Except.error (EngineError.scriptGeneration instanceId msg)
              | Except.ok merged =>
                  match createVideoScript merged with
                  | Except.error msg =>
                      Except.error (EngineError.scriptGeneration instanceId msg)
                  | Except.ok script => Except.ok (script, st)

/-- Embedding of `TemplateEngine.getInstance`. -/
def getInstance (st : EngineState) (instanceId : String) :
    Except EngineError InstanceJS :=
  match validateInput (JSValue.vstr instanceId) "instanceId" "string" with
  | Except.error e => Except.error e
  | Except.ok _ =>
      match st.instances.lookup instanceId with
      | some i => Except.ok i
      | none => Except.error (EngineError.instanceNotFound instanceId)

/-- Embedding of `TemplateEngine.deleteInstance`: returns the boolean result of
`Map.delete` (whether the key was present) together with the new state; it
never raises `InstanceNotFoundError`. -/
def deleteInstance (st : EngineState) (instanceId : String) :
    Except EngineError (Bool × EngineState) :=
  match validateInput (JSValue.vstr instanceId) "instanceId" "string" with
  | Except.error e => Except.error e
  | Except.ok _ =>
      Except.ok (mapHas st.instances instanceId,
        { st with instances := mapDelete st.instances instanceId })

/-- Embedding of `TemplateEngine.getAvailableInstances`. -/
def getAvailableInstances (st : EngineState) : List String :=
  st.instances.map Prod.fst

/-- The script-producing part of `generateScript` (its text output,
forgetting the unchanged state). -/
def scriptOf (st : EngineState) (instanceId : String) : Except EngineError String :=
  (generateScript st instanceId).map Prod.fst

/-- Engine states reachable from the empty engine by the public operations.
The read-only operations (`getTemplate`, `hasTemplate`, `getInstance`, the
listings) take no state parameter output and cannot change the state;
`generateScript` is included via its explicit state output. -/
inductive Reachable : EngineState → Prop where
  | empty : Reachable emptyEngine
  | register {st st' : EngineState} {t : TemplateJS} :
      Reachable st → registerTemplate st t = Except.ok st' → Reachable st'
  | create {st st' : EngineState} {tid fid : String} {c : CustomizationsJS}
      {inst : InstanceJS} :
      Reachable st → createInstance st tid c fid = Except.ok (inst, st') → Reachable st'
  | delete {st st' : EngineState} {id : String} {b : Bool} :
      Reachable st → deleteInstance st id = Except.ok (b, st') → Reachable st'
  | generate {st st' : EngineState} {id s : String} :
      Reachable st → generateScript st id = Except.ok (s, st') → Reachable st'

/-! ### Association-list lemmas -/

theorem lookup_append {α : Type} (l₁ l₂ : List (String × α)) (k : String) :
    (l₁ ++ l₂).lookup k = ((l₁.lookup k).or (l₂.lookup k)) := by
  induction l₁ with
  | nil => simp
  | cons kv rest ih =>
      obtain ⟨k1, v1⟩ := kv
      by_cases h : k = k1
      · subst h
        simp [List.lookup]
      · simp [List.lookup, beq_false_of_ne h, ih]

theorem lookup_none_of_not_mem {α : Type} {l : List (String × α)} {k : String}
    (h : k ∉ l.map Prod.fst) : l.lookup k = none := by
  induction l with
  | nil => simp
  | cons kv rest ih =>
      obtain ⟨k1, v1⟩ := kv
      simp only [List.map_cons, List.mem_cons, not_or] at h
      simp [List.lookup, beq_false_of_ne h.1, ih h.2]

theorem mem_keys_of_lookup {α : Type} {l : List (String × α)} {k : String} {v : α}
    (h : l.lookup k = some v) : k ∈ l.map Prod.fst := by
  by_contra hmem
  rw [lookup_none_of_not_mem hmem] at h
  exact Option.noConfusion h

theorem not_mem_keys_of_lookup_none {α : Type} {l : List (String × α)} {k : String}
    (h : l.lookup k = none) : k ∉ l.map Prod.fst := by
  induction l with
  | nil => simp
  | cons kv rest ih =>
      obtain ⟨k1, v1⟩ := kv
      by_cases hk : k = k1
      · subst hk
        simp [List.lookup] at h
      · simp only [List.lookup, beq_false_of_ne hk] at h
        simp [hk, ih h]

theorem mapSet_of_not_has {α : Type} {m : List (String × α)} {k : String} (v : α)
    (h : mapHas m k = false) : mapSet m k v = m ++ [(k, v)] := by
  simp [mapSet, h]

theorem lookup_cons_self {α : Type} (k : String) (v : α) (l : List (String × α)) :
    ((k, v) :: l).lookup k = some v := by
  simp [List.lookup]

theorem lookup_cons_ne {α : Type} {k k' : String} (v : α) (l : List (String × α))
    (h : k' ≠ k) : ((k, v) :: l).lookup k' = l.lookup k' := by
  simp [List.lookup, beq_false_of_ne h]

theorem lookup_map_replace {α : Type} (m : List (String × α)) (k k' : String) (v : α)
    (h : k' ≠ k) :
    (m.map (fun kv => if kv.1 = k then (k, v) else kv)).lookup k' = m.lookup k' := by
  induction m with
  | nil => rfl
  | cons kv rest ih =>
      obtain ⟨k1, v1⟩ := kv
      dsimp only [List.map_cons]
      by_cases h1 : k1 = k
      · rw [if_pos h1]
        subst h1
        rw [lookup_cons_ne v _ h, lookup_cons_ne v1 _ h, ih]
      · rw [if_neg h1]
        by_cases h2 : k' = k1
        · subst h2
          rw [lookup_cons_self, lookup_cons_self]
        · rw [lookup_cons_ne v1 _ h2, lookup_cons_ne v1 _ h2, ih]

theorem lookup_mapSet_ne {α : Type} (m : List (String × α)) {k k' : String} (v : α)
    (h : k' ≠ k) : (mapSet m k v).lookup k' = m.lookup k' := by
  unfold mapSet
  cases hh : mapHas m k with
  | true =>
      simp only [hh, if_true]
      exact lookup_map_replace m k k' v h
  | false =>
      simp only [hh, Bool.false_eq_true, if_false]
      rw [lookup_append]
      simp [List.lookup, beq_false_of_ne h]

theorem mapDelete_of_lookup_none {α : Type} {m : List (String × α)} {k : String}
    (h : m.lookup k = none) : mapDelete m k = m := by
  have hmem := not_mem_keys_of_lookup_none h
  unfold mapDelete
  rw [List.filter_eq_self]
  intro kv hkv
  simp only [ne_eq, decide_eq_true_eq]
  intro hk
  apply hmem
  rw [← hk]
  exact List.mem_map_of_mem Prod.fst hkv

/-! ### Elimination lemmas for the engine operations -/

theorem registerTemplate_ok {st st' : EngineState} {t : TemplateJS}
    (h : registerTemplate st t = Except.ok st') :
    mapHas st.templates t.id = false ∧ validateTemplate t = Except.ok () ∧
      st' = { st with templates := st.templates ++ [(t.id, t)] } := by
  unfold registerTemplate at h
  cases hh : mapHas st.templates t.id with
  | true => simp [hh] at h
  | false =>
      simp only [hh, Bool.false_eq_true, if_false] at h
      cases hv : validateTemplate t with
      | error e => rw [hv] at h; exact Except.noConfusion h
      | ok u =>
          cases u
          simp only [hv] at h
          rw [mapSet_of_not_has t hh] at h
          exact ⟨rfl, rfl, (Except.ok.inj h).symm⟩

theorem createInstance_ok {st st' : EngineState} {tid fid : String}
    {c : CustomizationsJS} {inst : InstanceJS}
    (h : createInstance st tid c fid = Except.ok (inst, st')) :
    ∃ t : TemplateJS,
      getTemplate st tid = Except.ok t ∧
      validateCustomizations t c = Except.ok () ∧
      inst = { templateId := tid, instanceId := fid,
               customizedChallenge := c.challenge,
               customizedParticipants := c.participants,
               customizedEnvironment := c.environment,
               customizedDialogue := c.dialogue,
               generationSettings :=
                 { outputFormat := "mp4", quality := "high", duration := none } } ∧
      st' = { st with instances := mapSet st.instances fid inst } := by
  unfold createInstance at h
  cases hv : validateInput (JSValue.vstr tid) "templateId" "string" with
  | error e => rw [hv] at h; exact Except.noConfusion h
  | ok u =>
      cases u
      simp only [hv] at h
      cases hg : getTemplate st tid with
      | error e => rw [hg] at h; exact Except.noConfusion h
      | ok t =>
          simp only [hg] at h
          cases hc : validateCustomizations t c with
          | error e => rw [hc] at h; exact Except.noConfusion h
          | ok u2 =>
              cases u2
              simp only [hc, Except.ok.injEq, Prod.mk.injEq] at h
              exact ⟨t, rfl, hc, h.1.symm, by rw [← h.2, ← h.1]⟩

theorem deleteInstance_ok {st st' : EngineState} {id : String} {b : Bool}
    (h : deleteInstance st id = Except.ok (b, st')) :
    b = mapHas st.instances id ∧
      st' = { st with instances := mapDelete st.instances id } := by
  unfold deleteInstance at h
  cases hv : validateInput (JSValue.vstr id) "instanceId" "string" with
  | error e => rw [hv] at h; exact Except.noConfusion h
  | ok u =>
      cases u
      simp only [hv, Except.ok.injEq, Prod.mk.injEq] at h
      exact ⟨h.1.symm, h.2.symm⟩

theorem generateScript_ok_state {st st' : EngineState} {id s : String}
    (h : generateScript st id = Except.ok (s, st')) : st' = st := by
  unfold generateScript at h
  cases hv : validateInput (JSValue.vstr id) "instanceId" "string" with
  | error e => rw [hv] at h; exact Except.noConfusion h
  | ok u =>
      cases u
      simp only [hv] at h
      cases hl : st.instances.lookup id with
      | none => rw [hl] at h; exact Except.noConfusion h
      | some inst =>
          simp only [hl] at h
          cases hg : getTemplate st inst.templateId with
          | error e =>
              rw [hg] at h
              cases e <;> exact Except.noConfusion h
          | ok t =>
              simp only [hg] at h
              cases hm : mergeTemplateWithCustomizations t inst with
              | error msg => rw [hm] at h; exact Except.noConfusion h
              | ok merged =>
                  simp only [hm] at h
                  cases hr : createVideoScript merged with
                  | error msg => rw [hr] at h; exact Except.noConfusion h
                  | ok script =>
                      simp only [hr, Except.ok.injEq, Prod.mk.injEq] at h
                      exact h.2.symm

/-! ### Characterization of a successfully validated template -/

/-- The structural invariants of the claim "Registry invariant": exactly one
gamemaster, `minParticipants ≥ 1`, `maxParticipants ≥ minParticipants`, and
the three segment durations sum to within 2 seconds of the metadata
duration. -/
def templateInvariant (t : TemplateJS) : Prop :=
  gamemasterCount t.participants = 1 ∧
  ∃ m : TemplateMetadata, t.metadata = some m ∧
    1 ≤ m.minParticipants ∧ m.minParticipants ≤ m.maxParticipants ∧
    ∃ (segs : SegmentsJS) (i g c : TimeSegment),
      t.segments = some segs ∧ segs.intro = some i ∧ segs.gameplay = some g ∧
      segs.conclusion = some c ∧
      (i.duration + g.duration + c.duration - m.duration).natAbs ≤ 2

theorem metadataIssues_nil {m : TemplateMetadata} (h : metadataIssues (some m) = []) :
    1 ≤ m.minParticipants ∧ m.minParticipants ≤ m.maxParticipants := by
  simp only [metadataIssues] at h
  split_ifs at h with h1 h2 h3 h4 <;> simp_all

theorem participantsSectionIssues_nil {ps : List Participant}
    (h : participantsSectionIssues ps = []) : gamemasterCount ps = 1 := by
  unfold participantsSectionIssues at h
  split_ifs at h with h1 h2 h3 <;> simp_all
  omega

theorem missingSegmentIssues_nil {segs : SegmentsJS} (h : missingSegmentIssues segs = []) :
    ∃ (i g c : TimeSegment),
      segs.intro = some i ∧ segs.gameplay = some g ∧ segs.conclusion = some c := by
  cases hi : segs.intro with
  | none => simp [missingSegmentIssues, hi] at h
  | some i =>
      cases hg : segs.gameplay with
      | none => simp [missingSegmentIssues, hi, hg] at h
      | some g =>
          cases hc : segs.conclusion with
          | none => simp [missingSegmentIssues, hi, hg, hc] at h
          | some c => exact ⟨i, g, c, rfl, rfl, rfl⟩

theorem durationMismatchIssues_nil {segs : SegmentsJS} {m : TemplateMetadata}
    {i g c : TimeSegment} (hic : segs.intro = some i) (hgc : segs.gameplay = some g)
    (hcc : segs.conclusion = some c) (h : durationMismatchIssues segs m = []) :
    (i.duration + g.duration + c.duration - m.duration).natAbs ≤ 2 := by
  unfold durationMismatchIssues totalSegmentDuration at h
  simp only [hic, hgc, hcc] at h
  by_cases htol : 2 < (i.duration + g.duration + c.duration - m.duration).natAbs
  · rw [if_pos htol] at h
    simp at h
  · omega

theorem validateTemplate_ok_elim {t : TemplateJS} (h : validateTemplate t = Except.ok ()) :
    ∃ (m : TemplateMetadata) (segs : SegmentsJS) (i g c : TimeSegment),
      t.metadata = some m ∧ t.segments = some segs ∧
      segs.intro = some i ∧ segs.gameplay = some g ∧ segs.conclusion = some c ∧
      gamemasterCount t.participants = 1 ∧
      1 ≤ m.minParticipants ∧ m.minParticipants ≤ m.maxParticipants ∧
      (i.duration + g.duration + c.duration - m.duration).natAbs ≤ 2 := by
  unfold validateTemplate at h
  cases hi : validateTemplateIssues t with
  | error e => rw [hi] at h; exact Except.noConfusion h
  | ok issues =>
      simp only [hi] at h
      by_cases hnil : issues = []
      · subst hnil
        unfold validateTemplateIssues at hi
        cases hs : t.segments with
        | none =>
            simp only [hs] at hi
            have := Except.ok.inj hi
            simp at this
        | some segs =>
            simp only [hs] at hi
            cases hm : t.metadata with
            | none => simp [hm] at hi
            | some m =>
                simp only [hm] at hi
                have hl := Except.ok.inj hi
                rw [List.append_eq_nil, List.append_eq_nil, List.append_eq_nil,
                  List.append_eq_nil] at hl
                obtain ⟨⟨⟨_, hmeta⟩, hparts⟩, hmiss, hdur⟩ := hl
                obtain ⟨i, g, c, hic, hgc, hcc⟩ := missingSegmentIssues_nil hmiss
                exact ⟨m, segs, i, g, c, rfl, rfl, hic, hgc, hcc,
                  participantsSectionIssues_nil hparts,
                  (metadataIssues_nil hmeta).1, (metadataIssues_nil hmeta).2,
                  durationMismatchIssues_nil hic hgc hcc hdur⟩
      · rw [if_neg hnil] at h
        exact Except.noConfusion h

/-- Every template stored in a reachable engine state passed
`validateTemplate`. -/
theorem reachable_lookup_validated {st : EngineState} (h : Reachable st) :
    ∀ {id : String} {t : TemplateJS}, st.templates.lookup id = some t →
      validateTemplate t = Except.ok () := by
  induction h with
  | empty => intro id t hl; simp [emptyEngine] at hl
  | @register st1 st2 tpl hprev hreg ih =>
      intro id t hl
      obtain ⟨hh, hv, hst⟩ := registerTemplate_ok hreg
      subst hst
      rw [lookup_append] at hl
      cases hcase : st1.templates.lookup id with
      | some t1 =>
          rw [hcase] at hl
          simp only [Option.or_some, Option.some.injEq] at hl
          subst hl
          exact ih hcase
      | none =>
          rw [hcase] at hl
          simp only [Option.none_or] at hl
          by_cases hid : id = tpl.id
          · subst hid
            rw [lookup_cons_self] at hl
            cases hl
            exact hv
          · rw [lookup_cons_ne _ _ hid] at hl
            exact Option.noConfusion hl
  | @create st1 st2 tid fid cz inst hprev hcr ih =>
      intro id t hl
      obtain ⟨t1, _, _, _, hst⟩ := createInstance_ok hcr
      subst hst
      exact ih hl
  | @delete st1 st2 did b hprev hdel ih =>
      intro id t hl
      obtain ⟨_, hst⟩ := deleteInstance_ok hdel
      subst hst
      exact ih hl
  | @generate st1 st2 gid gs hprev hgen ih =>
      intro id t hl
      have := generateScript_ok_state hgen
      subst this
      exact ih hl

/-- Every template stored in a reachable engine state satisfies the
structural invariants. -/
theorem reachable_lookup_invariant {st : EngineState} (h : Reachable st)
    {id : String} {t : TemplateJS} (hl : st.templates.lookup id = some t) :
    templateInvariant t := by
  obtain ⟨m, segs, i, g, c, hm, hs, hi, hg, hc, hgm, hmin, hmax, hdur⟩ :=
    validateTemplate_ok_elim (reachable_lookup_validated h hl)
  exact ⟨hgm, m, hm, hmin, hmax, segs, i, g, c, hs, hi, hg, hc, hdur⟩

theorem getTemplate_ok_lookup {st : EngineState} {tid : String} {t : TemplateJS}
    (h : getTemplate st tid = Except.ok t) : st.templates.lookup tid = some t := by
  unfold getTemplate at h
  cases hv : validateInput (JSValue.vstr tid) "templateId" "string" with
  | error e => rw [hv] at h; exact Except.noConfusion h
  | ok u =>
      simp only [hv] at h
      cases hl : st.templates.lookup tid with
      | none => rw [hl] at h; exact Except.noConfusion h
      | some t2 =>
          simp only [hl] at h
          rw [Except.ok.inj h]

/-! ### Merge characterization -/

/-- Read the segment stored under key `k` (the JS property access
`segments[segmentId]` restricted to own properties). -/
def segGet (segs : SegmentsJS) (k : String) : Option TimeSegment :=
  if k = "intro" then segs.intro
  else if k = "gameplay" then segs.gameplay
  else if k = "conclusion" then segs.conclusion
  else none

theorem segGet_applyDialogueOverride_self (segs : SegmentsJS) (k : String)
    (d : List DialogueElement) :
    segGet (applyDialogueOverride segs k d) k =
      (segGet segs k).map (fun s => setSegmentDialogue s d) := by
  unfold segGet applyDialogueOverride
  by_cases h1 : k = "intro"
  · simp only [h1, if_true]
    cases hseg : segs.intro <;> simp [hseg]
  · by_cases h2 : k = "gameplay"
    · simp only [h1, h2, if_false, if_true]
      cases hseg : segs.gameplay <;> simp [hseg]
    · by_cases h3 : k = "conclusion"
      · simp only [h1, h2, h3, if_false, if_true]
        cases hseg : segs.conclusion <;> simp [hseg]
      · simp [h1, h2, h3]

theorem segGet_applyDialogueOverride_ne (segs : SegmentsJS) {k k' : String}
    (d : List DialogueElement) (h : k' ≠ k) :
    segGet (applyDialogueOverride segs k d) k' = segGet segs k' := by
  unfold segGet applyDialogueOverride
  by_cases h1 : k = "intro"
  · subst h1
    cases segs.intro <;> simp [h]
  · by_cases h2 : k = "gameplay"
    · subst h2
      cases segs.gameplay <;> simp [h]
    · by_cases h3 : k = "conclusion"
      · subst h3
        cases segs.conclusion <;> simp [h]
      · simp [h1, h2, h3]

theorem segGet_applyAll_not_mem {es : DialogueMap} {k : String} (segs : SegmentsJS)
    (h : es.lookup k = none) :
    segGet (applyAllDialogueOverrides segs es) k = segGet segs k := by
  induction es generalizing segs with
  | nil => rfl
  | cons kd rest ih =>
      obtain ⟨k1, d1⟩ := kd
      have hk1 : k ≠ k1 := by
        intro he
        subst he
        rw [lookup_cons_self] at h
        exact Option.noConfusion h
      have hrest : rest.lookup k = none := by rwa [lookup_cons_ne _ _ hk1] at h
      unfold applyAllDialogueOverrides at ih ⊢
      simp only [List.foldl_cons]
      exact (ih _ hrest).trans (segGet_applyDialogueOverride_ne segs d1 hk1)

theorem segGet_applyAll_lookup {es : DialogueMap} {k : String}
    {d : List DialogueElement} (segs : SegmentsJS)
    (hnd : (es.map Prod.fst).Nodup) (h : es.lookup k = some d) :
    segGet (applyAllDialogueOverrides segs es) k =
      (segGet segs k).map (fun s => setSegmentDialogue s d) := by
  induction es generalizing segs with
  | nil => simp [List.lookup] at h
  | cons kd rest ih =>
      obtain ⟨k1, d1⟩ := kd
      simp only [List.map_cons, List.nodup_cons] at hnd
      by_cases hk : k = k1
      · subst hk
        rw [lookup_cons_self] at h
        cases h
        have hrest : rest.lookup k = none := lookup_none_of_not_mem hnd.1
        unfold applyAllDialogueOverrides
        simp only [List.foldl_cons]
        exact (segGet_applyAll_not_mem _ hrest).trans
          (segGet_applyDialogueOverride_self segs k d)
      · rw [lookup_cons_ne _ _ hk] at h
        unfold applyAllDialogueOverrides at ih ⊢
        simp only [List.foldl_cons]
        rw [ih _ hnd.2 h, segGet_applyDialogueOverride_ne segs d1 hk]

theorem merge_ok_parts {t : TemplateJS} {i : InstanceJS} {merged : TemplateJS}
    (h : mergeTemplateWithCustomizations t i = Except.ok merged) :
    merged.id = t.id ∧ merged.name = t.name ∧
    merged.challenge = (mergeBase t i).challenge ∧
    merged.environment = (mergeBase t i).environment ∧
    merged.participants = (mergeBase t i).participants ∧
    (i.customizedDialogue = none → merged.segments = t.segments) ∧
    (∀ (es : DialogueMap) (segs : SegmentsJS), i.customizedDialogue = some es →
      t.segments = some segs →
      merged.segments = some (applyAllDialogueOverrides segs es)) := by
  unfold mergeTemplateWithCustomizations at h
  cases hd : i.customizedDialogue with
  | none =>
      simp only [hd] at h
      have hm := Except.ok.inj h
      subst hm
      refine ⟨rfl, rfl, rfl, rfl, rfl, fun _ => rfl, ?_⟩
      intro es segs hes _
      exact Option.noConfusion hes
  | some es =>
      simp only [hd] at h
      cases hs : (mergeBase t i).segments with
      | some segs =>
          simp only [hs] at h
          have hm := Except.ok.inj h
          subst hm
          refine ⟨rfl, rfl, rfl, rfl, rfl, ?_, ?_⟩
          · intro hnone
            exact Option.noConfusion hnone
          · intro es' segs' hes hsegs
            cases hes
            have hs' : t.segments = some segs := hs
            rw [hs'] at hsegs
            cases hsegs
            rfl
      | none =>
          simp only [hs] at h
          by_cases hes : es = []
          · rw [if_pos hes] at h
            have hm := Except.ok.inj h
            subst hm
            refine ⟨rfl, rfl, rfl, rfl, rfl, ?_, ?_⟩
            · intro hnone
              exact Option.noConfusion hnone
            · intro es' segs' hes' hsegs
              have hs' : t.segments = none := hs
              rw [hs'] at hsegs
              exact Option.noConfusion hsegs
          · rw [if_neg hes] at h
            exact Except.noConfusion h

/-! ### Customization validation characterization -/

theorem indexedParticipantIssues_nil (label : String) {ps : List Participant}
    (h : ∀ p ∈ ps, validateParticipant p = []) :
    indexedParticipantIssues label ps = [] := by
  unfold indexedParticipantIssues
  rw [List.flatten_eq_nil_iff]
  intro l hl
  simp only [List.mem_map] at hl
  obtain ⟨ip, hip, rfl⟩ := hl
  have hmem : ip.2 ∈ ps := by
    have h2 := List.mem_map_of_mem Prod.snd hip
    rwa [List.enum_map_snd] at h2
  rw [h _ hmem]
  rfl

theorem validateCustomizations_ok_other {t : TemplateJS} {c : CustomizationsJS}
    (h : validateCustomizations t c = Except.ok ()) :
    otherCustomizationIssues c = [] := by
  unfold validateCustomizations at h
  cases hci : customizationIssues t c with
  | error e => rw [hci] at h; exact Except.noConfusion h
  | ok issues =>
      simp only [hci] at h
      by_cases hnil : issues = []
      · subst hnil
        unfold customizationIssues at hci
        cases hp : c.participants with
        | none =>
            simp only [hp] at hci
            exact Except.ok.inj hci
        | some ps =>
            simp only [hp] at hci
            cases hm : t.metadata with
            | none => simp [hm] at hci
            | some m =>
                simp only [hm] at hci
                exact (List.append_eq_nil.mp (Except.ok.inj hci)).2
      · rw [if_neg hnil] at h
        exact Except.noConfusion h

theorem validateCustomizations_ok_dialogueKeys {t : TemplateJS} {c : CustomizationsJS}
    {es : DialogueMap} (h : validateCustomizations t c = Except.ok ())
    (hd : c.dialogue = some es) :
    ∀ k ∈ es.map Prod.fst, k = "intro" ∨ k = "gameplay" ∨ k = "conclusion" := by
  have hother := validateCustomizations_ok_other h
  unfold otherCustomizationIssues at hother
  rw [List.append_eq_nil, List.append_eq_nil] at hother
  obtain ⟨⟨-, -⟩, hdia⟩ := hother
  simp only [hd] at hdia
  intro k hk
  have hf := List.filterMap_eq_nil_iff.mp hdia k hk
  by_cases hcase : k = "intro" ∨ k = "gameplay" ∨ k = "conclusion"
  · exact hcase
  · rw [if_neg hcase] at hf
    exact Option.noConfusion hf

/-! ### Script generation: congruence and state discipline -/

theorem getTemplate_congr {st st' : EngineState} (h : st'.templates = st.templates)
    (tid : String) : getTemplate st' tid = getTemplate st tid := by
  unfold getTemplate
  rw [h]

/-- The text produced by `generateScript` depends only on the looked-up
instance and the template registry: any state agreeing on those yields the
same script. -/
theorem scriptOf_congr {st st' : EngineState} (id : String)
    (htpl : st'.templates = st.templates)
    (hins : st'.instances.lookup id = st.instances.lookup id) :
    scriptOf st' id = scriptOf st id := by
  unfold scriptOf generateScript
  rw [hins]
  cases hv : validateInput (JSValue.vstr id) "instanceId" "string" with
  | error e => simp [hv]
  | ok u =>
      simp only [hv]
      cases hl : st.instances.lookup id with
      | none => simp
      | some inst =>
          simp only
          rw [getTemplate_congr htpl]
          cases hg : getTemplate st inst.templateId with
          | error e => cases e <;> simp
          | ok t =>
              simp only [hg]
              cases hm : mergeTemplateWithCustomizations t inst with
              | error msg => simp
              | ok merged =>
                  simp only [hm]
                  cases hr : createVideoScript merged with
                  | error msg => simp
                  | ok script =>
                      simp only [hr]
                      rfl

/-! ### Participant bounds characterization -/

theorem participantOverrideIssues_iff {m : TemplateMetadata} {ps : List Participant}
    (hval : ∀ p ∈ ps, validateParticipant p = []) (hgm : gamemasterCount ps = 1) :
    (participantOverrideIssues m ps = [] ↔
      (m.minParticipants ≤ (ps.length : Int) ∧ (ps.length : Int) ≤ m.maxParticipants)) := by
  unfold participantOverrideIssues
  rw [indexedParticipantIssues_nil _ hval, hgm]
  constructor
  · intro h
    rw [List.append_eq_nil, List.append_eq_nil, List.append_eq_nil,
      List.append_eq_nil] at h
    obtain ⟨⟨⟨⟨hlo, hhi⟩, -⟩, -⟩, -⟩ := h
    constructor
    · by_contra hc
      rw [if_pos (by omega)] at hlo
      exact List.noConfusion hlo
    · by_contra hc
      rw [if_pos (by omega)] at hhi
      exact List.noConfusion hhi
  · intro hb
    rw [if_neg (by omega), if_neg (by omega)]
    simp

theorem validateCustomizations_participants_iff {t : TemplateJS}
    {m : TemplateMetadata} {ps : List Participant} (hm : t.metadata = some m)
    (hval : ∀ p ∈ ps, validateParticipant p = []) (hgm : gamemasterCount ps = 1) :
    (validateCustomizations t { noCustomizations with participants := some ps }
        = Except.ok () ↔
      (m.minParticipants ≤ (ps.length : Int) ∧ (ps.length : Int) ≤ m.maxParticipants)) := by
  have key : customizationIssues t { noCustomizations with participants := some ps }
      = Except.ok (participantOverrideIssues m ps) := by
    simp [customizationIssues, otherCustomizationIssues, noCustomizations, hm]
  unfold validateCustomizations
  simp only [key]
  by_cases hptr : participantOverrideIssues m ps = []
  · rw [if_pos hptr]
    constructor
    · intro _
      exact (participantOverrideIssues_iff hval hgm).mp hptr
    · intro _
      rfl
  · rw [if_neg hptr]
    constructor
    · intro h
      exact absurd h (by simp)
    · intro hb
      exact absurd ((participantOverrideIssues_iff hval hgm).mpr hb) hptr

/-! ### Concrete sample data (used by witnesses and counterexamples) -/

/-- A time segment with the given start, duration and dialogue and no actions
or visual elements. -/
def sampleSegment (start dur : Int) (dial : List DialogueElement) : TimeSegment :=
  { startTime := start, duration := dur
    content := { dialogue := dial, actions := [], visualElements := [] } }

/-- The single gamemaster participant of the sample template. -/
def sampleGamemaster : Participant :=
  { id := "gm", role := "gamemaster", name := "Game Master", equipment := none
    isCustomizable := true }

/-- A player participant. -/
def samplePlayer (n : String) : Participant :=
  { id := n, role := "player", name := n, equipment := none, isCustomizable := true }

/-- Metadata with the bounds of the spec examples
(`minParticipants = 3`, `maxParticipants = 8`, duration 35). -/
def sampleMetadata : TemplateMetadata :=
  { originalVideo := "https://example.com/video", duration := 35, difficulty := "easy"
    minParticipants := 3, maxParticipants := 8 }

/-- The intro dialogue line of the sample template. -/
def sampleIntroLine : DialogueElement :=
  { speaker := "gamemaster", text := "Find the key.", timing := 0, isCustomizable := true }

/-- A small valid template shaped like the repository fixture (segments
3/27/5 s, participants 1 gamemaster + 2 players). -/
def sampleTemplate : TemplateJS :=
  { id := "t1", name := "Find the Key", description := "desc"
    metadata := some sampleMetadata
    challenge :=
      { objective := "Find the key", targetObjects := ["keys"], rules := ["r1"]
        successCondition := "find it", failureConsequence := "paintball"
        isCustomizable := true }
    participants := [sampleGamemaster, samplePlayer "p1", samplePlayer "p2"]
    environment :=
      { location := "room", props := ["keys"], constraints := ["enclosed"]
        isCustomizable := true }
    segments := some
      { intro := some (sampleSegment 0 3 [sampleIntroLine])
        gameplay := some (sampleSegment 3 27 [])
        conclusion := some (sampleSegment 30 5 []) }
    customizationOptions :=
      { allowParticipantChange := true, allowChallengeChange := true
        allowEnvironmentChange := true, allowDialogueChange := true } }

/-- The engine state holding exactly the registered sample template. -/
def sampleState : EngineState :=
  { templates := [("t1", sampleTemplate)], instances := [] }

/-- The sample template with its metadata removed (and a fresh id): the
failing input for the `validateTemplate` crash. -/
def noMetadataTemplate : TemplateJS :=
  { sampleTemplate with id := "t2", metadata := none }

/-- Customization payload overriding only the challenge objective. -/
def cHuntW : CustomizationsJS :=
  { noCustomizations with
      challenge := some { emptyChallengeOverride with objective := some "Hunt the treasure" } }

/-- The instance `createInstance sampleState "t1" cHuntW "i1"` produces. -/
def instHuntW : InstanceJS :=
  { templateId := "t1", instanceId := "i1"
    customizedChallenge := cHuntW.challenge
    customizedParticipants := none, customizedEnvironment := none
    customizedDialogue := none
    generationSettings := { outputFormat := "mp4", quality := "high", duration := none } }

/-- The engine state after creating `instHuntW`. -/
def stateHuntW : EngineState :=
  { templates := [("t1", sampleTemplate)], instances := [("i1", instHuntW)] }

/-- The resolved view of `instHuntW`. -/
def mergedHuntW : TemplateJS :=
  { sampleTemplate with
      challenge := { sampleTemplate.challenge with objective := "Hunt the treasure" } }

/-- The script text generated for `instHuntW`. -/
def huntScriptW : String :=
  "# Video Script: Find the Key\n\n## Challenge: Hunt the treasure\n**Location:** room\n**Participants:** 3\n\n## Intro (0-3s)\n**gamemaster:** \"Find the key.\"\n\n## Gameplay (3-30s)\n\n## Conclusion (30-35s)\n"

/-- A second challenge override whose objective text is chosen to coincide
with the script header. -/
def cLeakW : CustomizationsJS :=
  { noCustomizations with
      challenge := some { emptyChallengeOverride with objective := some "# Video Script" } }

/-- The instance `createInstance stateHuntW "t1" cLeakW "i2"` produces. -/
def instLeakW : InstanceJS :=
  { templateId := "t1", instanceId := "i2"
    customizedChallenge := cLeakW.challenge
    customizedParticipants := none, customizedEnvironment := none
    customizedDialogue := none
    generationSettings := { outputFormat := "mp4", quality := "high", duration := none } }

/-- The engine state holding both instances. -/
def stateLeakW : EngineState :=
  { templates := [("t1", sampleTemplate)], instances := [("i1", instHuntW), ("i2", instLeakW)] }

/-- A replacement for the second instance with yet another objective. -/
def instLeakW2 : InstanceJS :=
  { instLeakW with
      customizedChallenge := some { emptyChallengeOverride with objective := some "Steal the crown" } }

/-- Participant lists for the participant-bounds cases. -/
def psLen1 : List Participant := [sampleGamemaster]

def psLen3 : List Participant := [sampleGamemaster, samplePlayer "p1", samplePlayer "p2"]

def psLen9 : List Participant :=
  sampleGamemaster :: (List.range 8).map (fun i => samplePlayer (toString i))

def psNoGm : List Participant := [samplePlayer "p1", samplePlayer "p2", samplePlayer "p3"]

def psTwoGm : List Participant :=
  [sampleGamemaster, { sampleGamemaster with id := "gm2" }, samplePlayer "p1"]

/-- Whether a validation outcome is a `CustomizationValidationError`. -/
def isCustomizationError : Except EngineError Unit → Bool
  | Except.error (EngineError.customizationValidation _ _) => true
  | _ => false

/-- A replacement dialogue line used in the dialogue-override witness. -/
def newIntroLine : DialogueElement :=
  { speaker := "narrator", text := "Welcome to the race.", timing := 0, isCustomizable := true }

/-- Customization payload replacing only the intro dialogue. -/
def cDlgW : CustomizationsJS :=
  { noCustomizations with dialogue := some [("intro", [newIntroLine])] }

/-- The instance `createInstance sampleState "t1" cDlgW "i3"` produces. -/
def instDlgW : InstanceJS :=
  { templateId := "t1", instanceId := "i3"
    customizedChallenge := none, customizedParticipants := none
    customizedEnvironment := none
    customizedDialogue := some [("intro", [newIntroLine])]
    generationSettings := { outputFormat := "mp4", quality := "high", duration := none } }

/-- The engine state after creating `instDlgW`. -/
def stateDlgW : EngineState :=
  { templates := [("t1", sampleTemplate)], instances := [("i3", instDlgW)] }

/-- The resolved view of `instDlgW`: the intro dialogue fully replaced. -/
def mergedDlgW : TemplateJS :=
  { sampleTemplate with
      segments := some
        { intro := some (sampleSegment 0 3 [newIntroLine])
          gameplay := some (sampleSegment 3 27 [])
          conclusion := some (sampleSegment 30 5 []) } }

/-! ### Claim theorems -/

/-- C1: Merge precedence of resolve.  For every registered template and every
instance accepted by `createInstance`, and for every challenge or environment
field: a field present in the override ends up in the resolved view with the
override value; a field absent from the override keeps the base template
value. -/
theorem merge_precedence (st : EngineState) (tid : String) (t : TemplateJS)
    (ht : st.templates.lookup tid = some t)
    (c : CustomizationsJS) (fid : String) (inst : InstanceJS) (st' : EngineState)
    (hc : createInstance st tid c fid = Except.ok (inst, st'))
    (merged : TemplateJS)
    (hm : mergeTemplateWithCustomizations t inst = Except.ok merged) :
    (inst.customizedChallenge = none → merged.challenge = t.challenge) ∧
    (∀ o : ChallengeOverride, inst.customizedChallenge = some o →
      ((∀ v, o.objective = some v → merged.challenge.objective = v) ∧
       (o.objective = none → merged.challenge.objective = t.challenge.objective) ∧
       (∀ v, o.targetObjects = some v → merged.challenge.targetObjects = v) ∧
       (o.targetObjects = none → merged.challenge.targetObjects = t.challenge.targetObjects) ∧
       (∀ v, o.rules = some v → merged.challenge.rules = v) ∧
       (o.rules = none → merged.challenge.rules = t.challenge.rules) ∧
       (∀ v, o.successCondition = some v → merged.challenge.successCondition = v) ∧
       (o.successCondition = none →
         merged.challenge.successCondition = t.challenge.successCondition) ∧
       (∀ v, o.failureConsequence = some v → merged.challenge.failureConsequence = v) ∧
       (o.failureConsequence = none →
         merged.challenge.failureConsequence = t.challenge.failureConsequence) ∧
       (∀ v, o.isCustomizable = some v → merged.challenge.isCustomizable = v) ∧
       (o.isCustomizable = none →
         merged.challenge.isCustomizable = t.challenge.isCustomizable))) ∧
    (inst.customizedEnvironment = none → merged.environment = t.environment) ∧
    (∀ o : EnvironmentOverride, inst.customizedEnvironment = some o →
      ((∀ v, o.location = some v → merged.environment.location = v) ∧
       (o.location = none → merged.environment.location = t.environment.location) ∧
       (∀ v, o.props = some v → merged.environment.props = v) ∧
       (o.props = none → merged.environment.props = t.environment.props) ∧
       (∀ v, o.constraints = some v → merged.environment.constraints = v) ∧
       (o.constraints = none → merged.environment.constraints = t.environment.constraints) ∧
       (∀ v, o.isCustomizable = some v → merged.environment.isCustomizable = v) ∧
       (o.isCustomizable = none →
         merged.environment.isCustomizable = t.environment.isCustomizable))) := by
  obtain ⟨-, -, hch, henv, -, -, -⟩ := merge_ok_parts hm
  refine ⟨?_, ?_, ?_, ?_⟩
  · intro hnone
    rw [hch]
    simp [mergeBase, hnone]
  · intro o ho
    have hcho : merged.challenge = mergeChallenge t.challenge o := by
      rw [hch]
      simp [mergeBase, ho]
    rw [hcho]
    refine ⟨?_, ?_, ?_, ?_, ?_, ?_, ?_, ?_, ?_, ?_, ?_, ?_⟩ <;>
      first
        | (intro v hv; simp [mergeChallenge, hv])
        | (intro hv; simp [mergeChallenge, hv])
  · intro hnone
    rw [henv]
    simp [mergeBase, hnone]
  · intro o ho
    have heno : merged.environment = mergeEnvironment t.environment o := by
      rw [henv]
      simp [mergeBase, ho]
    rw [heno]
    refine ⟨?_, ?_, ?_, ?_, ?_, ?_, ?_, ?_⟩ <;>
      first
        | (intro v hv; simp [mergeEnvironment, hv])
        | (intro hv; simp [mergeEnvironment, hv])

/-- Witness for C1: the concrete objective override lands in the resolved
view, and an untouched field keeps its base value. -/
theorem merge_precedence_witness :
    mergedHuntW.challenge.objective = "Hunt the treasure" ∧
    mergedHuntW.challenge.rules = sampleTemplate.challenge.rules := by
  have h := merge_precedence sampleState "t1" sampleTemplate rfl cHuntW "i1"
    instHuntW stateHuntW (by decide) mergedHuntW (by decide)
  exact ⟨(h.2.1 _ rfl).1 _ rfl, ((h.2.1 _ rfl).2.2.2.2.2.1) rfl⟩

/-- C2 (code bug): on a template whose `metadata` is missing while its
`segments` are present, `validateTemplate` does not fail with a
`TemplateValidationError`; line 89 of validation.ts reads
`template.metadata.duration` without a guard and crashes with a TypeError. -/
theorem validateTemplate_missing_metadata_crash :
    noMetadataTemplate.metadata = none ∧
    (noMetadataTemplate.segments).isSome = true ∧
    validateTemplate noMetadataTemplate = Except.error EngineError.jsTypeError := by
  decide

/-- C3: participant bounds.  Concretely for `minParticipants = 3`,
`maxParticipants = 8`: lengths 1 and 9 fail, length 3 with zero or two
gamemasters fails, length 3 with exactly one gamemaster succeeds; and in
general, for valid participants with exactly one gamemaster, acceptance is
exactly membership of the length in `[minParticipants, maxParticipants]`. -/
theorem participant_bounds :
    isCustomizationError (validateCustomizations sampleTemplate
      { noCustomizations with participants := some psLen1 }) = true ∧
    isCustomizationError (validateCustomizations sampleTemplate
      { noCustomizations with participants := some psLen9 }) = true ∧
    isCustomizationError (validateCustomizations sampleTemplate
      { noCustomizations with participants := some psNoGm }) = true ∧
    isCustomizationError (validateCustomizations sampleTemplate
      { noCustomizations with participants := some psTwoGm }) = true ∧
    validateCustomizations sampleTemplate
      { noCustomizations with participants := some psLen3 } = Except.ok () ∧
    (∀ (t : TemplateJS) (m : TemplateMetadata) (ps : List Participant),
      t.metadata = some m → (∀ p ∈ ps, validateParticipant p = []) →
      gamemasterCount ps = 1 →
      (validateCustomizations t { noCustomizations with participants := some ps }
          = Except.ok () ↔
        (m.minParticipants ≤ (ps.length : Int) ∧ (ps.length : Int) ≤ m.maxParticipants))) := by
  refine ⟨by decide, by decide, by decide, by decide, by decide, ?_⟩
  intro t m ps hm hval hgm
  exact validateCustomizations_participants_iff hm hval hgm

/-- Witness for C3: the general bound equivalence applied to the concrete
length-3 list. -/
theorem participant_bounds_witness :
    validateCustomizations sampleTemplate
      { noCustomizations with participants := some psLen3 } = Except.ok () := by
  have h := participant_bounds
  exact (h.2.2.2.2.2 sampleTemplate sampleMetadata psLen3 rfl (by decide) (by decide)).mpr
    (by decide)

/-- C4: dialogue replacement with frame.  For an accepted instance whose
dialogue override names segment key `k` with sequence `d`, the resolved view
carries exactly `d` as that segment dialogue (full replacement), the
segment actions and visual elements are unchanged, and every segment key not
named in the override map resolves unchanged. -/
theorem dialogue_replacement_frame (st : EngineState) (hre : Reachable st)
    (tid : String) (t : TemplateJS) (ht : st.templates.lookup tid = some t)
    (c : CustomizationsJS) (fid : String) (inst : InstanceJS) (st' : EngineState)
    (hc : createInstance st tid c fid = Except.ok (inst, st'))
    (es : DialogueMap) (hd : inst.customizedDialogue = some es)
    (hnd : (es.map Prod.fst).Nodup)
    (merged : TemplateJS) (hm : mergeTemplateWithCustomizations t inst = Except.ok merged)
    (k : String) (d : List DialogueElement) (hk : es.lookup k = some d) :
    ∃ (segs msegs : SegmentsJS) (bseg mseg : TimeSegment),
      t.segments = some segs ∧ merged.segments = some msegs ∧
      segGet segs k = some bseg ∧ segGet msegs k = some mseg ∧
      mseg.content.dialogue = d ∧
      mseg.content.actions = bseg.content.actions ∧
      mseg.content.visualElements = bseg.content.visualElements ∧
      (∀ k' : String, es.lookup k' = none → segGet msegs k' = segGet segs k') := by
  obtain ⟨t1, hg, hvc, hinst, -⟩ := createInstance_ok hc
  have ht1 : t1 = t := by
    have hx := getTemplate_ok_lookup hg
    rw [ht] at hx
    exact (Option.some.inj hx).symm
  subst ht1
  obtain ⟨m, segs, i, g, cseg, hmm, hs, hi, hgseg, hcseg, -, -, -, -⟩ :=
    validateTemplate_ok_elim (reachable_lookup_validated hre ht)
  have hcd : c.dialogue = some es := by
    rw [hinst] at hd
    exact hd
  have hkeys := validateCustomizations_ok_dialogueKeys hvc hcd
  have hk3 := hkeys k (mem_keys_of_lookup hk)
  obtain ⟨-, -, -, -, -, -, hsegs⟩ := merge_ok_parts hm
  have hms : merged.segments = some (applyAllDialogueOverrides segs es) := hsegs es segs hd hs
  have hbase : ∃ bseg, segGet segs k = some bseg := by
    rcases hk3 with h3 | h3 | h3 <;> subst h3
    · exact ⟨i, by simp [segGet, hi]⟩
    · exact ⟨g, by simp [segGet, hgseg]⟩
    · exact ⟨cseg, by simp [segGet, hcseg]⟩
  obtain ⟨bseg, hbseg⟩ := hbase
  have hseg2 : segGet (applyAllDialogueOverrides segs es) k =
      some (setSegmentDialogue bseg d) := by
    rw [segGet_applyAll_lookup segs hnd hk, hbseg]
    rfl
  refine ⟨segs, applyAllDialogueOverrides segs es, bseg, setSegmentDialogue bseg d,
    hs, hms, hbseg, hseg2, rfl, rfl, rfl, ?_⟩
  intro k' hk'
  exact segGet_applyAll_not_mem segs hk'

/-- Witness for C4: replacing the intro dialogue of the concrete instance. -/
theorem dialogue_replacement_frame_witness :
    ∃ (segs msegs : SegmentsJS) (bseg mseg : TimeSegment),
      sampleTemplate.segments = some segs ∧ mergedDlgW.segments = some msegs ∧
      segGet segs "intro" = some bseg ∧ segGet msegs "intro" = some mseg ∧
      mseg.content.dialogue = [newIntroLine] ∧
      mseg.content.actions = bseg.content.actions ∧
      mseg.content.visualElements = bseg.content.visualElements ∧
      (∀ k' : String, ([("intro", [newIntroLine])] : DialogueMap).lookup k' = none →
        segGet msegs k' = segGet segs k') :=
  dialogue_replacement_frame sampleState
    (@Reachable.register emptyEngine sampleState sampleTemplate Reachable.empty (by decide))
    "t1" sampleTemplate rfl
    cDlgW "i3" instDlgW stateDlgW (by decide)
    [("intro", [newIntroLine])] rfl (by decide)
    mergedDlgW (by decide) "intro" [newIntroLine] rfl

/-- C5: registry invariant.  In every engine state reachable from the empty
engine by the public operations, every stored template has exactly one
gamemaster, `minParticipants ≥ 1`, `maxParticipants ≥ minParticipants`, and
segment durations summing to within 2 seconds of the metadata duration. -/
theorem registry_invariant (st : EngineState) (h : Reachable st) (tid : String)
    (t : TemplateJS) (hl : st.templates.lookup tid = some t) :
    templateInvariant t :=
  reachable_lookup_invariant h hl

/-- Witness for C5: the invariant holds for the sample template looked up in
the state reached by registering it. -/
theorem registry_invariant_witness : templateInvariant sampleTemplate :=
  registry_invariant sampleState
    (@Reachable.register emptyEngine sampleState sampleTemplate Reachable.empty (by decide))
    "t1" sampleTemplate rfl

/-- C6 counterexample: the claim that neither script contains the objective
text of the other instance is false as stated.  Two accepted instances of the
sample template differ only in their challenge-objective overrides, yet the
script of the first one contains the objective text of the second one, which
was chosen to coincide with the script header. -/
theorem override_isolation_counterexample :
    createInstance sampleState "t1" cHuntW "i1" = Except.ok (instHuntW, stateHuntW) ∧
    createInstance stateHuntW "t1" cLeakW "i2" = Except.ok (instLeakW, stateLeakW) ∧
    instHuntW.customizedChallenge =
      some { emptyChallengeOverride with objective := some "Hunt the treasure" } ∧
    instLeakW.customizedChallenge =
      some { emptyChallengeOverride with objective := some "# Video Script" } ∧
    instHuntW.customizedParticipants = instLeakW.customizedParticipants ∧
    instHuntW.customizedEnvironment = instLeakW.customizedEnvironment ∧
    instHuntW.customizedDialogue = instLeakW.customizedDialogue ∧
    instHuntW.templateId = instLeakW.templateId ∧
    Except.map (fun sc => List.isPrefixOf ("# Video Script".data) sc.data)
        (scriptOf stateLeakW "i1")
      = Except.ok true := by
  decide

/-- C6 as amended: the script of each instance depends only on its own
stored data — replacing what is stored under the other instance id never
changes it — and generating a script leaves the whole engine state (registry
and instance store) unchanged. -/
theorem override_isolation_amended (st : EngineState) (id1 id2 : String)
    (inst2 : InstanceJS) (hne : id1 ≠ id2) :
    scriptOf { st with instances := mapSet st.instances id2 inst2 } id1
        = scriptOf st id1 ∧
    (∀ s st2, generateScript st id1 = Except.ok (s, st2) → st2 = st) := by
  constructor
  · exact scriptOf_congr id1 rfl (lookup_mapSet_ne st.instances inst2 hne)
  · intro s st2 h
    exact generateScript_ok_state h

/-- Witness for C6 (amended): replacing the second concrete instance by one
with yet another objective leaves the script of the first one unchanged. -/
theorem override_isolation_amended_witness :
    scriptOf { stateLeakW with instances := mapSet stateLeakW.instances "i2" instLeakW2 } "i1"
      = scriptOf stateLeakW "i1" :=
  (override_isolation_amended stateLeakW "i1" "i2" instLeakW2 (by decide)).1

/-- C7: idempotent read.  For an instance id present in the store, a
successful `generateScript` leaves the state unchanged (it writes neither
map), and calling it again on the resulting state returns the identical
text. -/
theorem generateScript_idempotent (st : EngineState) (iid : String)
    (hmem : (st.instances.lookup iid).isSome = true) :
    ∀ s st2, generateScript st iid = Except.ok (s, st2) →
      st2 = st ∧ generateScript st2 iid = Except.ok (s, st2) := by
  intro s st2 h
  have hst := generateScript_ok_state h
  subst hst
  exact ⟨rfl, h⟩

set_option maxRecDepth 4000 in
/-- Witness for C7: generating the script of the concrete instance twice. -/
theorem generateScript_idempotent_witness :
    stateHuntW = stateHuntW ∧
    generateScript stateHuntW "i1" = Except.ok (huntScriptW, stateHuntW) :=
  generateScript_idempotent stateHuntW "i1" (by decide) huntScriptW stateHuntW (by decide)

/-- C8: registry append-only with duplicate precedence.  If a template id is
already registered, registering any record payload with that id fails with
`DuplicateTemplateError` — the duplicate check runs before `validateTemplate`,
so this holds even for payloads that would fail validation — and the throw
happens before any store write, so the registry is unchanged. -/
theorem duplicate_registration (st : EngineState) (t2 : TemplateJS)
    (h : mapHas st.templates t2.id = true) :
    registerTemplate st t2 = Except.error (EngineError.duplicateTemplate t2.id) := by
  unfold registerTemplate
  simp [h]

/-- Witness for C8: re-registering under the sample id with an invalid
payload (metadata stripped) still reports the duplicate. -/
theorem duplicate_registration_witness :
    registerTemplate sampleState { sampleTemplate with metadata := none }
      = Except.error (EngineError.duplicateTemplate "t1") :=
  duplicate_registration sampleState { sampleTemplate with metadata := none } (by decide)

/-- C9 counterexample: `deleteInstance` of an unknown id does not surface
`InstanceNotFound`; it returns `false` (the result of `Map.delete`). -/
theorem deleteInstance_unknown_counterexample :
    deleteInstance emptyEngine "ghost" = Except.ok (false, emptyEngine) ∧
    deleteInstance emptyEngine "ghost"
      ≠ Except.error (EngineError.instanceNotFound "ghost") := by
  decide

/-- C9 as amended: for a non-empty unknown instance id, `deleteInstance`
returns `false` and leaves the state unchanged, while lookup (`getInstance`)
and render (`generateScript`) of the same unknown id do surface
`InstanceNotFound`. -/
theorem deleteInstance_unknown_amended (st : EngineState) (iid : String)
    (hid : jsTrimEmpty iid = false) (h : st.instances.lookup iid = none) :
    deleteInstance st iid = Except.ok (false, st) ∧
    getInstance st iid = Except.error (EngineError.instanceNotFound iid) ∧
    scriptOf st iid = Except.error (EngineError.instanceNotFound iid) := by
  have hv : validateInput (JSValue.vstr iid) "instanceId" "string" = Except.ok () := by
    simp [validateInput, hid]
  refine ⟨?_, ?_, ?_⟩
  · unfold deleteInstance
    simp only [hv]
    rw [show mapHas st.instances iid = false from by simp [mapHas, h]]
    rw [mapDelete_of_lookup_none h]
  · unfold getInstance
    simp only [hv, h]
  · unfold scriptOf generateScript
    simp only [hv, h]
    rfl

/-- Witness for C9 (amended): the unknown id "ghost" against the empty
engine. -/
theorem deleteInstance_unknown_amended_witness :
    deleteInstance emptyEngine "ghost" = Except.ok (false, emptyEngine) ∧
    getInstance emptyEngine "ghost" = Except.error (EngineError.instanceNotFound "ghost") ∧
    scriptOf emptyEngine "ghost" = Except.error (EngineError.instanceNotFound "ghost") :=
  deleteInstance_unknown_amended emptyEngine "ghost" (by decide) rfl

/-- C10: `hasTemplate` is not total over arbitrary inputs: null/undefined,
non-strings, and strings empty after trimming all raise `InvalidInputError`;
only a non-empty-after-trim string input returns a boolean. -/
theorem hasTemplate_input_strictness (st : EngineState) (v : JSValue) :
    (v = JSValue.vnull →
      hasTemplate st v
        = Except.error (EngineError.invalidInput "templateId" "string" "null/undefined")) ∧
    (∀ s, v = JSValue.vstr s → jsTrimEmpty s = true →
      hasTemplate st v
        = Except.error (EngineError.invalidInput "templateId" "non-empty string" "empty string")) ∧
    ((∀ s, v ≠ JSValue.vstr s) → v ≠ JSValue.vnull →
      hasTemplate st v
        = Except.error (EngineError.invalidInput "templateId" "string" (jsActualType v))) ∧
    (∀ s, v = JSValue.vstr s → jsTrimEmpty s = false →
      hasTemplate st v = Except.ok (mapHas st.templates s)) := by
  refine ⟨?_, ?_, ?_, ?_⟩
  · intro hv
    subst hv
    rfl
  · intro s hv hs
    subst hv
    simp [hasTemplate, validateInput, hs]
  · intro hnstr hnnull
    cases v with
    | vnull => exact absurd rfl hnnull
    | vstr s => exact absurd rfl (hnstr s)
    | vnum n => rfl
    | vbool b => rfl
    | varr => rfl
    | vobj => rfl
  · intro s hv hs
    subst hv
    simp [hasTemplate, validateInput, hs]

/-- Witness for C10: a number input raises `InvalidInputError` naming the
observed kind. -/
theorem hasTemplate_input_strictness_witness :
    hasTemplate emptyEngine (JSValue.vnum 7)
      = Except.error (EngineError.invalidInput "templateId" "string" "number") := by
  have h := hasTemplate_input_strictness emptyEngine (JSValue.vnum 7)
  exact h.2.2.1 (fun s => by simp) (by simp)

end VideoTemplate
